import Mathlib

/-!
Shallow embedding of the pro-forma underwriting engine:
`models/assumptions.py`, `models/metrics.py`, `models/financial_model.py`
and `models/monte_carlo.py`.

Python floats are modelled as exact rationals (ℚ); Python `int` fields are
modelled as ℤ.  Operations that can raise in Python (true division by zero,
list indexing) are modelled in the `Except String` monad; everything else is
translated as pure total functions.  Field and function names follow the
source.
-/

/-- Python true division `a / b`: raises ZeroDivisionError when `b = 0`. -/
def pyDiv (a b : ℚ) : Except String ℚ :=
  if b = 0 then .error "ZeroDivisionError" else .ok (a / b)

/-- Python list indexing `l[i]` with negative-index wrap-around; raises
IndexError when the (possibly wrapped) index is out of range. -/
def pyGet {α : Type} (l : List α) (i : ℤ) : Except String α :=
  let j : ℤ := if i < 0 then i + l.length else i
  if h : 0 ≤ j ∧ j < l.length then
    .ok (l.get ⟨j.toNat, by
      rcases h with ⟨h0, h1⟩
      omega⟩)
  else .error "IndexError"

/-- Python slicing `l[:k]` (take a prefix; a negative bound counts from the
end, clamped at zero). -/
def pySliceTo {α : Type} (l : List α) (k : ℤ) : List α :=
  l.take ((if k < 0 then (l.length : ℤ) + k else k).toNat)

/-- Python `range(a, b)` as a list of integers. -/
def listRange (a b : ℤ) : List ℤ :=
  (List.range (b - a).toNat).map (fun k => a + (k : ℤ))

/-- Round-half-to-even to an integer, the rounding mode of Python `round`. -/
def roundHalfEven (q : ℚ) : ℤ :=
  let f := ⌊q⌋
  let r := q - (f : ℚ)
  if r < 1/2 then f
  else if 1/2 < r then f + 1
  else if f % 2 = 0 then f else f + 1

/-- Python `round(x, nd)` on exact rationals (round-half-to-even). -/
def pyRound (q : ℚ) (nd : ℕ) : ℚ :=
  (roundHalfEven (q * (10 : ℚ) ^ nd) : ℚ) / (10 : ℚ) ^ nd

/-- Prefix test on character lists (Python's startswith). -/
def charStartsWith : List Char → List Char → Bool
  | _, [] => true
  | [], _ :: _ => false
  | c :: cs, d :: ds => c = d && charStartsWith cs ds

/-- Core splitter on character lists, fuelled to keep the recursion
structural: split at every leftmost occurrence of a non-empty separator,
as Python str.split with a separator argument does. -/
def charSplitOnFuel (sep : List Char) : ℕ → List Char → List (List Char)
  | 0, l => [l]
  | _ + 1, [] => [[]]
  | fuel + 1, c :: cs =>
    if sep.length ≠ 0 ∧ charStartsWith (c :: cs) sep then
      [] :: charSplitOnFuel sep fuel (List.drop (sep.length - 1) cs)
    else
      match charSplitOnFuel sep fuel cs with
      | [] => [[c]]
      | p :: ps => (c :: p) :: ps

/-- Python `s.split(sep)` on character lists (the fuel is always
sufficient: each step consumes at least one character). -/
def charSplitOn (sep l : List Char) : List (List Char) :=
  charSplitOnFuel sep (l.length + 1) l

/-- Python whitespace for str.strip / argument-less str.split. -/
def isPyWs (c : Char) : Bool :=
  c = ' ' || c = '\t' || c = '\n' || c = '\r'

/-- Python `s.strip()` on character lists. -/
def charTrim (l : List Char) : List Char :=
  ((l.dropWhile isPyWs).reverse.dropWhile isPyWs).reverse

/-- Substring occurrence test on character lists (Python `sub in s`). -/
def charContains (sub : List Char) : List Char → Bool
  | [] => charStartsWith [] sub
  | c :: cs => charStartsWith (c :: cs) sub || charContains sub cs

/-- Python `s.strip()` on strings. -/
def pyStrip (s : String) : String := String.mk (charTrim s.data)

/-- Substring test, modelling Python `sub in s`. -/
def strContains (s sub : String) : Bool := charContains sub.data s.data

/-- Raw deal sheet inputs (dataclass `DealInputs`).  The committed revision of
`assumptions.py` omits three fields that the rest of the repository reads and
writes on this dataclass; they are included here.  `yearly_revenue_growth`,
`tax_rate` and `land_value_pct` are modelled from the spec: DealInputs also
carries a tax rate, a land-value percentage and an optional ordered sequence
of per-year growth-rate percentages that overrides the flat
`revenue_growth_rate` for every year it covers. -/
structure DealInputs where
  property_type : String := "Multifamily - Class B"
  address : String := ""
  year_built : ℤ := 2000
  purchase_price : ℚ := 0
  current_noi : ℚ := 0
  total_units : ℤ := 0
  total_sf : ℚ := 0
  in_place_rent : ℚ := 0
  market_rent : ℚ := 0
  occupancy : ℚ := 0.92
  deferred_maintenance : ℚ := 0
  planned_capex : ℚ := 0
  capex_description : String := ""
  hold_period_years : ℤ := 7
  ltv : ℚ := 0.65
  interest_rate : ℚ := 0.0675
  amortization_years : ℤ := 30
  loan_term_years : ℤ := 10
  io_period_years : ℤ := 0
  closing_costs_pct : ℚ := 0.03
  revenue_growth_rate : ℚ := 0.03
  expense_growth_rate : ℚ := 0.03
  management_fee_pct : ℚ := 0.035
  exit_cap_rate_spread : ℚ := 0.0025
  sale_costs_pct : ℚ := 0.025
  replacement_reserves_per_unit : ℚ := 250
  yearly_revenue_growth : List ℚ := []
  tax_rate : ℚ := 0.25
  land_value_pct : ℚ := 0.20


/-- Everything derived from the raw deal inputs (dataclass
`DerivedAssumptions`).  `annual_depreciation` is read by the pro-forma engine
but not declared in the committed revision of `assumptions.py`; it is
modelled from the spec: straight-line annual depreciation of the
depreciable (non-land) portion of the total project cost over 27.5 years. -/
structure DerivedAssumptions where
  property_name : String := ""
  city : String := ""
  state : String := ""
  zip_code : String := ""
  street_address : String := ""
  asset_type : String := "Multifamily"
  asset_class : String := "Class B"
  gross_potential_rent : ℚ := 0
  market_gpr : ℚ := 0
  vacancy_rate : ℚ := 0.08
  effective_gross_income : ℚ := 0
  other_income : ℚ := 0
  rent_premium_potential : ℚ := 0
  total_operating_expenses : ℚ := 0
  expense_ratio : ℚ := 0
  property_tax : ℚ := 0
  insurance : ℚ := 0
  utilities : ℚ := 0
  repairs_maintenance : ℚ := 0
  general_admin : ℚ := 0
  other_expenses : ℚ := 0
  total_capex : ℚ := 0
  capex_per_unit : ℚ := 0
  total_project_cost : ℚ := 0
  loan_amount : ℚ := 0
  equity_required : ℚ := 0
  going_in_cap_rate : ℚ := 0
  exit_cap_rate : ℚ := 0
  price_per_unit : ℚ := 0
  price_per_sf : ℚ := 0
  annual_depreciation : ℚ := 0


/-- Components of a parsed address (`parse_address`). -/
structure ParsedAddress where
  street : String := ""
  city : String := ""
  state : String := ""
  zip : String := ""


/-- Python `s.split()` (split on whitespace runs, dropping empty pieces). -/
def pySplitWs (s : String) : List String :=
  ((charSplitOn [' '] s.data).filter (fun p => p ≠ [])).map (fun l => String.mk l)

/-- Parse a full address string into components (`parse_address`). -/
def parse_address (address : String) : ParsedAddress :=
  let parts := (charSplitOn [','] address.data).map (fun p => String.mk (charTrim p))
  let r0 : ParsedAddress := {}
  let r1 := if parts.length ≥ 1 then { r0 with street := parts.getD 0 "" } else r0
  let r2 := if parts.length ≥ 2 then { r1 with city := parts.getD 1 "" } else r1
  let r3 :=
    if parts.length ≥ 3 then
      let state_zip := pySplitWs (pyStrip (parts.getD 2 ""))
      { r2 with state := state_zip.getD 0 ""
                zip := if state_zip.length > 1 then state_zip.getD 1 "" else "" }
    else r2
  if parts.length ≥ 4 then { r3 with zip := pyStrip (parts.getD 3 "") } else r3

/-- Parse a property-type string like the source's `parse_property_type`
(Python `split(" - ", 1)` splits only at the first separator, so the tail
pieces are rejoined). -/
def parse_property_type (prop_type : String) : String × String :=
  let parts := charSplitOn [' ', '-', ' '] prop_type.data
  if parts.length ≥ 2 then
    (String.mk (charTrim (parts.getD 0 [])),
     String.mk (charTrim (List.intercalate [' ', '-', ' '] parts.tail)))
  else (pyStrip prop_type, "")

/-- Derive all underwriting assumptions from raw deal inputs
(`derive_assumptions`).  Every division in the source is guarded, so the
function is pure and total.  The final `annual_depreciation` line is
modelled from the spec (straight-line depreciation of the non-land basis
over 27.5 years); everything above it is translated from the source. -/
def derive_assumptions (deal : DealInputs) : DerivedAssumptions :=
  let addr := parse_address deal.address
  let tc := parse_property_type deal.property_type
  let gross_potential_rent := deal.in_place_rent * (deal.total_units : ℚ) * 12
  let market_gpr :=
    if deal.market_rent > 0 then deal.market_rent * (deal.total_units : ℚ) * 12
    else gross_potential_rent
  let vacancy_rate := 1 - deal.occupancy
  let egi0 := gross_potential_rent * deal.occupancy
  let rent_premium_potential :=
    if deal.market_rent > 0 then deal.market_rent - deal.in_place_rent else 0
  let other_income :=
    if strContains tc.1 "Multifamily" then gross_potential_rent * 0.05
    else gross_potential_rent * 0.03
  let effective_gross_income := egi0 + other_income
  let toe0 := effective_gross_income - deal.current_noi
  let total_operating_expenses := if toe0 < 0 then 0 else toe0
  let expRatio :=
    if effective_gross_income > 0 then
      total_operating_expenses / effective_gross_income
    else 0.45
  let total_ex := total_operating_expenses
  let mgmt0 := effective_gross_income * deal.management_fee_pct
  let remaining0 := total_ex - mgmt0
  let remaining := if remaining0 < 0 then total_ex else remaining0
  let total_capex := deal.deferred_maintenance + deal.planned_capex
  let capex_per_unit :=
    if deal.total_units > 0 then total_capex / (deal.total_units : ℚ) else 0
  let closing := deal.purchase_price * deal.closing_costs_pct
  let total_project_cost := deal.purchase_price + closing + total_capex
  let loan_amount := deal.purchase_price * deal.ltv
  let equity_required := total_project_cost - loan_amount
  let going_in_cap_rate :=
    if deal.purchase_price > 0 then deal.current_noi / deal.purchase_price else 0
  let price_per_unit :=
    if deal.purchase_price > 0 then
      (if deal.total_units > 0 then deal.purchase_price / (deal.total_units : ℚ) else 0)
    else 0
  let price_per_sf :=
    if deal.purchase_price > 0 then
      (if deal.total_sf > 0 then deal.purchase_price / deal.total_sf else 0)
    else 0
  { property_name := if addr.street ≠ "" then addr.street else "Subject Property"
    city := addr.city
    state := addr.state
    zip_code := addr.zip
    street_address := addr.street
    asset_type := tc.1
    asset_class := tc.2
    gross_potential_rent := gross_potential_rent
    market_gpr := market_gpr
    vacancy_rate := vacancy_rate
    effective_gross_income := effective_gross_income
    other_income := other_income
    rent_premium_potential := rent_premium_potential
    total_operating_expenses := total_operating_expenses
    expense_ratio := expRatio
    property_tax := remaining * 0.35
    insurance := remaining * 0.15
    utilities := remaining * 0.15
    repairs_maintenance := remaining * 0.15
    general_admin := remaining * 0.10
    other_expenses := remaining * 0.10
    total_capex := total_capex
    capex_per_unit := capex_per_unit
    total_project_cost := total_project_cost
    loan_amount := loan_amount
    equity_required := equity_required
    going_in_cap_rate := going_in_cap_rate
    exit_cap_rate := going_in_cap_rate + deal.exit_cap_rate_spread
    price_per_unit := price_per_unit
    price_per_sf := price_per_sf
    annual_depreciation := total_project_cost * (1 - deal.land_value_pct) / 27.5 }

/-- Sum of the six derived expense categories stored on
`DerivedAssumptions` (management fee is computed in `derive_assumptions`
but not stored as a category). -/
def sumExpenseCategories (d : DerivedAssumptions) : ℚ :=
  d.property_tax + d.insurance + d.utilities + d.repairs_maintenance +
    d.general_admin + d.other_expenses

/-- The category pool of `derive_assumptions`: total operating expenses
less the management fee, with the fee zeroed out when it exceeds the
total. -/
def derive_remaining (deal : DealInputs) : ℚ :=
  if (derive_assumptions deal).total_operating_expenses -
       (derive_assumptions deal).effective_gross_income * deal.management_fee_pct < 0
  then (derive_assumptions deal).total_operating_expenses
  else (derive_assumptions deal).total_operating_expenses -
       (derive_assumptions deal).effective_gross_income * deal.management_fee_pct

/-- Net present value of a cash-flow series at a given rate (year-0 flow
undiscounted), the polynomial whose root is the IRR. -/
def npv (rate : ℚ) (cash_flows : List ℚ) : ℚ :=
  (cash_flows.enum.map (fun p => p.2 / (1 + rate) ^ p.1)).sum

/-- Bracketed iterative refinement of a root of the NPV function. -/
def irrBisect (cash_flows : List ℚ) : ℕ → ℚ → ℚ → ℚ
  | 0, lo, hi => (lo + hi) / 2
  | n + 1, lo, hi =>
      let mid := (lo + hi) / 2
      if npv lo cash_flows * npv mid cash_flows ≤ 0 then irrBisect cash_flows n lo mid
      else irrBisect cash_flows n mid hi

/-- Modelled from the spec: the IRR routine itself is a library dependency
(numpy-financial), not repository code.  Per the spec it is an iterative
root-finder on the NPV function whose degenerate outcomes are a raised
error (empty input), or a NaN/None result when no real root is found
(e.g. all-positive or all-negative cash flows) — represented here as
`.error` and `.ok none` respectively. -/
def npfIrrRaw (cash_flows : List ℚ) : Except String (Option ℚ) :=
  if cash_flows = [] then .error "ValueError"
  else
    let lo : ℚ := -99/100
    let hi : ℚ := 10
    if npv lo cash_flows * npv hi cash_flows ≤ 0 then
      .ok (some (irrBisect cash_flows 40 lo hi))
    else .ok none

/-- IRR wrapper (`calc_irr`): the library call is guarded by try/except and
a NaN/None check, every degenerate outcome mapping to `none`. -/
def calc_irr (cash_flows : List ℚ) : Option ℚ :=
  match npfIrrRaw cash_flows with
  | .error _ => none
  | .ok none => none
  | .ok (some v) => some v

/-- Total distributions over invested equity (`calc_equity_multiple`);
`cash_flows[0]` raises IndexError on an empty list. -/
def calc_equity_multiple (cash_flows : List ℚ) : Except String ℚ := do
  let c0 ← pyGet cash_flows 0
  let invested := |c0|
  if invested = 0 then pure 0
  else pyDiv ((cash_flows.drop 1).sum) invested

/-- Annual cash flow over equity invested (`calc_cash_on_cash`). -/
def calc_cash_on_cash (annual_cf equity_invested : ℚ) : Except String ℚ :=
  if equity_invested = 0 then .ok 0 else pyDiv annual_cf equity_invested

/-- NOI over annual debt service (`calc_dscr`). -/
def calc_dscr (noi annual_debt_service : ℚ) : Except String ℚ :=
  if annual_debt_service = 0 then .ok 0 else pyDiv noi annual_debt_service

/-- Stabilized NOI over total project cost (`calc_yield_on_cost`). -/
def calc_yield_on_cost (noi total_cost : ℚ) : Except String ℚ :=
  if total_cost = 0 then .ok 0 else pyDiv noi total_cost

/-- Monthly mortgage payment (`calc_monthly_payment`).  The unguarded case
is numpy-financial's pmt formula; numpy never raises here, but a zero
denominator produces a non-finite float, which has no rational
representation and is modelled as an error value. -/
def calc_monthly_payment (principal annual_rate : ℚ) (amort_years : ℤ) :
    Except String ℚ :=
  if principal = 0 ∨ annual_rate = 0 then .ok 0
  else
    let r := annual_rate / 12
    let temp : ℚ := (1 + r) ^ (12 * amort_years)
    if temp - 1 = 0 then .error "non-finite float"
    else .ok (principal * temp * r / (temp - 1))

/-- One month of the amortization schedule (rounded, as stored). -/
structure AmortMonth where
  month : ℤ
  payment : ℚ
  principal : ℚ
  interest : ℚ
  balance : ℚ

/-- Monthly amortization schedule (`build_amortization_schedule`): interest
only during the IO window, P and I afterwards; the carried balance is
unrounded, the stored fields are rounded to cents. -/
def build_amortization_schedule (principal annual_rate : ℚ)
    (amort_years term_years io_years : ℤ) : Except String (List AmortMonth) :=
  let monthly_rate := annual_rate / 12
  let total_months := 12 * term_years
  let io_months := 12 * io_years
  if principal = 0 then .ok []
  else do
    let pi_payment ← calc_monthly_payment principal annual_rate amort_years
    let io_payment := principal * monthly_rate
    let step := fun (st : ℚ × List AmortMonth) (m : ℤ) =>
      let balance := st.1
      let interest := balance * monthly_rate
      let principal_paid := if m ≤ io_months then 0 else pi_payment - interest
      let payment := if m ≤ io_months then io_payment else pi_payment
      let newBal := balance - principal_paid
      (newBal, st.2 ++ [{ month := m
                          payment := pyRound payment 2
                          principal := pyRound principal_paid 2
                          interest := pyRound interest 2
                          balance := pyRound (max newBal 0) 2 }])
    .ok ((listRange 1 (total_months + 1)).foldl step (principal, [])).2

/-- Per-year revenue growth resolution (`_get_revenue_growth`):
percentage-valued year-by-year rates from the predictor take priority for
every covered (0-indexed) year index, the flat rate applies otherwise.  A
negative index wraps as in Python; an index below the negated length would
raise IndexError in Python but is unreachable from the engine (every call
site passes a non-negative index on plausible inputs) and is mapped to the
flat rate here. -/
def getRevenueGrowth (deal : DealInputs) (yr_idx : ℤ) : ℚ :=
  let yg := deal.yearly_revenue_growth
  if yg.length ≠ 0 ∧ yr_idx < (yg.length : ℤ) then
    if 0 ≤ yr_idx then yg.getD yr_idx.toNat 0 / 100
    else if -(yg.length : ℤ) ≤ yr_idx then yg.getD (yg.length - (-yr_idx).toNat) 0 / 100
    else deal.revenue_growth_rate
  else deal.revenue_growth_rate

/-- Rent per unit in projection year `yr` (1-indexed): linear ramp from
in-place to market rent over `min 3 hold` years when there is a positive
rent gap, then growth compounding from market rent (year-by-year product
when variable rates are present, flat exponentiation otherwise); without a
gap, compounding from in-place rent. -/
def rentPerUnit (deal : DealInputs) (yr : ℕ) : ℚ :=
  let in_place := deal.in_place_rent
  let market := if deal.market_rent > 0 then deal.market_rent else in_place
  let rent_gap := market - in_place
  let ramp_years : ℤ := min 3 deal.hold_period_years
  let has_variable_growth := deal.yearly_revenue_growth.length ≠ 0
  if rent_gap > 0 ∧ (yr : ℤ) ≤ ramp_years then
    in_place + rent_gap * ((yr : ℚ) / (ramp_years : ℚ))
  else if rent_gap > 0 then
    if has_variable_growth then
      (listRange ramp_years (yr : ℤ)).foldl
        (fun acc y => acc * (1 + getRevenueGrowth deal y)) market
    else market * (1 + deal.revenue_growth_rate) ^ ((yr : ℤ) - ramp_years)
  else
    if has_variable_growth then
      (listRange 0 ((yr : ℤ) - 1)).foldl
        (fun acc y => acc * (1 + getRevenueGrowth deal y)) in_place
    else in_place * (1 + deal.revenue_growth_rate) ^ (yr - 1)

/-- Occupancy in projection year `yr`: two-year linear ramp toward the
stabilized level when capex is being done and occupancy starts below 95%. -/
def occupancyY (deal : DealInputs) (derived : DerivedAssumptions) (yr : ℕ) : ℚ :=
  if derived.total_capex > 0 ∧ deal.occupancy < 0.95 then
    let stabilized_occ := min 0.95 (deal.occupancy + 0.03)
    if yr ≤ 2 then deal.occupancy + (stabilized_occ - deal.occupancy) * ((yr : ℚ) / 2)
    else stabilized_occ
  else deal.occupancy

/-- Gross potential rent in year `yr`. -/
def gprY (deal : DealInputs) (yr : ℕ) : ℚ :=
  rentPerUnit deal yr * (deal.total_units : ℚ) * 12

/-- Expense compounding factor for year `yr` (flat expense growth). -/
def expGrowthY (deal : DealInputs) (yr : ℕ) : ℚ :=
  (1 + deal.expense_growth_rate) ^ (yr - 1)

/-- Other income in year `yr`, grown with the resolved revenue growth. -/
def otherIncomeY (deal : DealInputs) (derived : DerivedAssumptions) (yr : ℕ) : ℚ :=
  if deal.yearly_revenue_growth.length ≠ 0 then
    (listRange 0 ((yr : ℤ) - 1)).foldl
      (fun acc y => acc * (1 + getRevenueGrowth deal y)) derived.other_income
  else derived.other_income * (1 + deal.revenue_growth_rate) ^ (yr - 1)

/-- Effective gross income in year `yr`. -/
def egiY (deal : DealInputs) (derived : DerivedAssumptions) (yr : ℕ) : ℚ :=
  gprY deal yr * occupancyY deal derived yr + otherIncomeY deal derived yr

/-- Management fee expense line in year `yr` (a percentage of that year's
EGI, not an expense-growth compounding line). -/
def mgmtFeeY (deal : DealInputs) (derived : DerivedAssumptions) (yr : ℕ) : ℚ :=
  egiY deal derived yr * deal.management_fee_pct

/-- Property tax expense line in year `yr`. -/
def propTaxY (deal : DealInputs) (derived : DerivedAssumptions) (yr : ℕ) : ℚ :=
  derived.property_tax * expGrowthY deal yr

/-- Insurance expense line in year `yr`. -/
def insuranceY (deal : DealInputs) (derived : DerivedAssumptions) (yr : ℕ) : ℚ :=
  derived.insurance * expGrowthY deal yr

/-- Utilities expense line in year `yr`. -/
def utilitiesY (deal : DealInputs) (derived : DerivedAssumptions) (yr : ℕ) : ℚ :=
  derived.utilities * expGrowthY deal yr

/-- Repairs and maintenance expense line in year `yr`. -/
def repairsY (deal : DealInputs) (derived : DerivedAssumptions) (yr : ℕ) : ℚ :=
  derived.repairs_maintenance * expGrowthY deal yr

/-- General and administrative expense line in year `yr`. -/
def generalAdminY (deal : DealInputs) (derived : DerivedAssumptions) (yr : ℕ) : ℚ :=
  derived.general_admin * expGrowthY deal yr

/-- Other-expenses line in year `yr`. -/
def otherExpensesY (deal : DealInputs) (derived : DerivedAssumptions) (yr : ℕ) : ℚ :=
  derived.other_expenses * expGrowthY deal yr

/-- Replacement reserves line in year `yr`. -/
def reservesY (deal : DealInputs) (yr : ℕ) : ℚ :=
  deal.replacement_reserves_per_unit * (deal.total_units : ℚ) * expGrowthY deal yr

/-- Total operating expenses in year `yr`. -/
def totalExpensesY (deal : DealInputs) (derived : DerivedAssumptions) (yr : ℕ) : ℚ :=
  mgmtFeeY deal derived yr + propTaxY deal derived yr + insuranceY deal derived yr +
    utilitiesY deal derived yr + repairsY deal derived yr +
    generalAdminY deal derived yr + otherExpensesY deal derived yr + reservesY deal yr

/-- Net operating income in year `yr`. -/
def noiY (deal : DealInputs) (derived : DerivedAssumptions) (yr : ℕ) : ℚ :=
  egiY deal derived yr - totalExpensesY deal derived yr

/-- Debt service in year `yr`: interest-only inside the IO window, the
annualized P and I payment afterwards. -/
def debtServiceY (deal : DealInputs) (loan_amount annual_ds : ℚ) (yr : ℕ) : ℚ :=
  if (yr : ℤ) ≤ deal.io_period_years then loan_amount * deal.interest_rate
  else annual_ds

/-- Before-tax cash flow in year `yr`. -/
def btcfY (deal : DealInputs) (derived : DerivedAssumptions)
    (loan_amount annual_ds : ℚ) (yr : ℕ) : ℚ :=
  noiY deal derived yr - debtServiceY deal loan_amount annual_ds yr

/-- Interest expense attributed to year `yr`: read off the monthly schedule
when it covers the year, else the IO/approximation fallbacks. -/
def interestExpenseY (deal : DealInputs) (amort_schedule : List AmortMonth)
    (loan_amount yr_ds : ℚ) (yr : ℕ) : ℚ :=
  if amort_schedule.length ≠ 0 ∧ yr * 12 ≤ amort_schedule.length then
    (((amort_schedule.drop ((yr - 1) * 12)).take 12).map (fun m => m.interest)).sum
  else if (yr : ℤ) ≤ deal.io_period_years then yr_ds
  else loan_amount * deal.interest_rate

/-- Taxable income in year `yr`. -/
def taxableIncomeY (deal : DealInputs) (derived : DerivedAssumptions)
    (amort_schedule : List AmortMonth) (loan_amount annual_ds : ℚ) (yr : ℕ) : ℚ :=
  noiY deal derived yr -
    interestExpenseY deal amort_schedule loan_amount
      (debtServiceY deal loan_amount annual_ds yr) yr -
    derived.annual_depreciation

/-- Tax liability in year `yr` (floored at zero). -/
def taxLiabilityY (deal : DealInputs) (derived : DerivedAssumptions)
    (amort_schedule : List AmortMonth) (loan_amount annual_ds : ℚ) (yr : ℕ) : ℚ :=
  max 0 (taxableIncomeY deal derived amort_schedule loan_amount annual_ds yr * deal.tax_rate)

/-- After-tax cash flow in year `yr`. -/
def atcfY (deal : DealInputs) (derived : DerivedAssumptions)
    (amort_schedule : List AmortMonth) (loan_amount annual_ds : ℚ) (yr : ℕ) : ℚ :=
  btcfY deal derived loan_amount annual_ds yr -
    taxLiabilityY deal derived amort_schedule loan_amount annual_ds yr

/-- Sources and uses block (the source's nested dict, flattened). -/
structure SourcesUses where
  senior_debt : ℚ
  sponsor_equity : ℚ
  sources_total : ℚ
  purchase_price : ℚ
  closing_costs : ℚ
  deferred_maintenance : ℚ
  planned_capex : ℚ
  total_capex : ℚ
  uses_total : ℚ

/-- One projection-year row of the pro forma (fields rounded as stored). -/
structure ProFormaRow where
  year : ℕ
  rent_per_unit : ℚ
  revenue_growth_used : ℚ
  occupancy : ℚ
  gross_potential_rent : ℚ
  vacancy_loss : ℚ
  other_income : ℚ
  effective_gross_income : ℚ
  management_fee : ℚ
  property_tax : ℚ
  insurance : ℚ
  utilities : ℚ
  repairs_maintenance : ℚ
  general_admin : ℚ
  other_expenses : ℚ
  replacement_reserves : ℚ
  total_expenses : ℚ
  noi : ℚ
  debt_service : ℚ
  btcf : ℚ
  interest_expense : ℚ
  depreciation : ℚ
  taxable_income : ℚ
  tax_liability : ℚ
  atcf : ℚ

/-- Assemble the stored (rounded) row for projection year `yr` from the
per-year quantities. -/
def proFormaRow (deal : DealInputs) (derived : DerivedAssumptions)
    (amort_schedule : List AmortMonth) (loan_amount annual_ds : ℚ) (yr : ℕ) :
    ProFormaRow :=
  let growth := getRevenueGrowth deal ((yr : ℤ) - 1)
  let rpu := rentPerUnit deal yr
  let occ := occupancyY deal derived yr
  let gpr := gprY deal yr
  let yr_ds := debtServiceY deal loan_amount annual_ds yr
  { year := yr
    rent_per_unit := pyRound rpu 0
    revenue_growth_used := pyRound (growth * 100) 2
    occupancy := pyRound occ 4
    gross_potential_rent := pyRound gpr 2
    vacancy_loss := pyRound (gpr * (1 - occ)) 2
    other_income := pyRound (otherIncomeY deal derived yr) 2
    effective_gross_income := pyRound (egiY deal derived yr) 2
    management_fee := pyRound (mgmtFeeY deal derived yr) 2
    property_tax := pyRound (propTaxY deal derived yr) 2
    insurance := pyRound (insuranceY deal derived yr) 2
    utilities := pyRound (utilitiesY deal derived yr) 2
    repairs_maintenance := pyRound (repairsY deal derived yr) 2
    general_admin := pyRound (generalAdminY deal derived yr) 2
    other_expenses := pyRound (otherExpensesY deal derived yr) 2
    replacement_reserves := pyRound (reservesY deal yr) 2
    total_expenses := pyRound (totalExpensesY deal derived yr) 2
    noi := pyRound (noiY deal derived yr) 2
    debt_service := pyRound yr_ds 2
    btcf := pyRound (btcfY deal derived loan_amount annual_ds yr) 2
    interest_expense := pyRound (interestExpenseY deal amort_schedule loan_amount yr_ds yr) 2
    depreciation := pyRound derived.annual_depreciation 2
    taxable_income := pyRound (taxableIncomeY deal derived amort_schedule loan_amount annual_ds yr) 2
    tax_liability := pyRound (taxLiabilityY deal derived amort_schedule loan_amount annual_ds yr) 2
    atcf := pyRound (atcfY deal derived amort_schedule loan_amount annual_ds yr) 2 }

/-- One year of the annual amortization summary. -/
structure AnnualAmort where
  year : ℕ
  total_payment : ℚ
  total_principal : ℚ
  total_interest : ℚ
  ending_balance : ℚ

/-- Exit/reversion snapshot. -/
structure Reversion where
  exit_year : ℤ
  forward_noi : ℚ
  exit_cap_rate : ℚ
  sale_price : ℚ
  sale_costs : ℚ
  loan_balance : ℚ
  net_sale_proceeds : ℚ
  total_depreciation : ℚ
  adjusted_basis : ℚ
  capital_gain : ℚ
  depreciation_recapture_tax : ℚ
  capital_gains_tax : ℚ
  total_tax_on_sale : ℚ
  net_sale_proceeds_after_tax : ℚ

/-- Scalar return metrics of the build. -/
structure Metrics where
  levered_irr : Option ℚ
  unlevered_irr : Option ℚ
  after_tax_irr : Option ℚ
  equity_multiple : ℚ
  after_tax_equity_multiple : ℚ
  cash_on_cash_yr1 : ℚ
  cash_on_cash_yr1_after_tax : ℚ
  dscr_yr1 : ℚ
  yield_on_cost : ℚ
  stabilized_yoc : ℚ
  stabilized_dscr : ℚ
  going_in_cap_rate : ℚ
  exit_cap_rate : ℚ
  price_per_unit : ℚ
  price_per_sf : ℚ
  used_variable_growth : Bool

/-- The complete result object of `build_pro_forma` (the inputs echo
`to_full_dict` is represented by carrying the deal and the derived
assumptions themselves). -/
structure ProFormaResult where
  inputs : DealInputs
  derived : DerivedAssumptions
  sources_uses : SourcesUses
  pro_forma : List ProFormaRow
  amortization_monthly : List AmortMonth
  amortization_annual : List AnnualAmort
  reversion : Reversion
  metrics : Metrics
  levered_cash_flows : List ℚ
  unlevered_cash_flows : List ℚ
  after_tax_cash_flows : List ℚ
  annual_nois : List ℚ
  annual_btcfs : List ℚ
  annual_atcfs : List ℚ

/-- Debt-service setup of `build_pro_forma` (lines 36-49): monthly payment,
annualized debt service, and the monthly amortization schedule when both a
loan and a positive rate are present. -/
def setupDebtService (deal : DealInputs) (loan_amount : ℚ) :
    Except String (ℚ × ℚ × List AmortMonth) :=
  if loan_amount > 0 ∧ deal.interest_rate > 0 then do
    let mp ← calc_monthly_payment loan_amount deal.interest_rate deal.amortization_years
    let sched ← build_amortization_schedule loan_amount deal.interest_rate
      deal.amortization_years deal.loan_term_years deal.io_period_years
    pure (mp, mp * 12, sched)
  else pure (0, 0, [])

/-- Forward NOI for the reversion (lines 199-202): the NOI of the year
following exit when inside the 10-year window, else the exit NOI grown one
more period at the resolved rate. -/
def resolveForwardNoi (deal : DealInputs) (annual_nois : List ℚ)
    (exit_year : ℤ) (exit_noi : ℚ) : Except String ℚ :=
  if exit_year < (annual_nois.length : ℤ) then pyGet annual_nois exit_year
  else pure (exit_noi * (1 + getRevenueGrowth deal exit_year))

/-- Loan balance at exit (lines 211-214): read from the schedule when it
covers the exit month, else the original loan amount. -/
def resolveExitLoanBalance (amort_schedule : List AmortMonth) (exit_year : ℤ)
    (loan_amount : ℚ) : Except String ℚ :=
  if amort_schedule.length ≠ 0 ∧ exit_year * 12 ≤ (amort_schedule.length : ℤ) then do
    let m ← pyGet amort_schedule (exit_year * 12 - 1)
    pure m.balance
  else pure loan_amount

/-- Conditional metric call, modelling the source's
`calc_xxx(a, b) if b > 0 else 0` expressions. -/
def guardedMetric (f : ℚ → ℚ → Except String ℚ) (a b : ℚ) : Except String ℚ :=
  if b > 0 then f a b else pure 0

/-- Build a 10-year pro forma from deal inputs (`build_pro_forma`). -/
def buildProForma (deal : DealInputs) : Except String ProFormaResult := do
  let derived := derive_assumptions deal
  let years : ℕ := 10
  let hold := deal.hold_period_years
  let closing_costs := deal.purchase_price * deal.closing_costs_pct
  let sources_uses : SourcesUses :=
    { senior_debt := pyRound derived.loan_amount 2
      sponsor_equity := pyRound derived.equity_required 2
      sources_total := pyRound (derived.loan_amount + derived.equity_required) 2
      purchase_price := pyRound deal.purchase_price 2
      closing_costs := pyRound closing_costs 2
      deferred_maintenance := pyRound deal.deferred_maintenance 2
      planned_capex := pyRound deal.planned_capex 2
      total_capex := pyRound derived.total_capex 2
      uses_total := pyRound derived.total_project_cost 2 }
  let loan_amount := derived.loan_amount
  let dres ← setupDebtService deal loan_amount
  let annual_ds := dres.2.1
  let amort_schedule := dres.2.2
  let pro_forma_years := (List.range years).map
    (fun i => proFormaRow deal derived amort_schedule loan_amount annual_ds (i + 1))
  let annual_nois := (List.range years).map (fun i => noiY deal derived (i + 1))
  let annual_btcfs := (List.range years).map
    (fun i => btcfY deal derived loan_amount annual_ds (i + 1))
  let annual_atcfs := (List.range years).map
    (fun i => atcfY deal derived amort_schedule loan_amount annual_ds (i + 1))
  let exit_year : ℤ := min hold (years : ℤ)
  let exit_noi ← pyGet annual_nois (exit_year - 1)
  let forward_noi ← resolveForwardNoi deal annual_nois exit_year exit_noi
  let exit_cap := if derived.exit_cap_rate ≤ 0 then 0.06 else derived.exit_cap_rate
  let sale_price ← pyDiv forward_noi exit_cap
  let sale_costs := sale_price * deal.sale_costs_pct
  let loan_balance_at_exit ← resolveExitLoanBalance amort_schedule exit_year loan_amount
  let net_sale_proceeds := sale_price - sale_costs - loan_balance_at_exit
  let total_depreciation_taken := derived.annual_depreciation * (exit_year : ℚ)
  let adjusted_basis := derived.total_project_cost - total_depreciation_taken
  let capital_gain := max 0 (sale_price - sale_costs - adjusted_basis)
  let depreciation_recapture := min capital_gain total_depreciation_taken * 0.25
  let remaining_gain := max 0 (capital_gain - total_depreciation_taken) * 0.20
  let tax_on_sale := depreciation_recapture + remaining_gain
  let net_sale_proceeds_after_tax := net_sale_proceeds - tax_on_sale
  let reversion : Reversion :=
    { exit_year := exit_year
      forward_noi := pyRound forward_noi 2
      exit_cap_rate := pyRound exit_cap 4
      sale_price := pyRound sale_price 2
      sale_costs := pyRound sale_costs 2
      loan_balance := pyRound loan_balance_at_exit 2
      net_sale_proceeds := pyRound net_sale_proceeds 2
      total_depreciation := pyRound total_depreciation_taken 2
      adjusted_basis := pyRound adjusted_basis 2
      capital_gain := pyRound capital_gain 2
      depreciation_recapture_tax := pyRound depreciation_recapture 2
      capital_gains_tax := pyRound remaining_gain 2
      total_tax_on_sale := pyRound tax_on_sale 2
      net_sale_proceeds_after_tax := pyRound net_sale_proceeds_after_tax 2 }
  let equity := derived.equity_required
  let total_cost := derived.total_project_cost
  let btcf_exit ← pyGet annual_btcfs (exit_year - 1)
  let atcf_exit ← pyGet annual_atcfs (exit_year - 1)
  let levered_cfs :=
    [-equity] ++ pySliceTo annual_btcfs (exit_year - 1) ++ [btcf_exit + net_sale_proceeds]
  let unlevered_cfs :=
    [-total_cost] ++ pySliceTo annual_nois (exit_year - 1) ++
      [exit_noi + sale_price - sale_costs]
  let levered_atcfs :=
    [-equity] ++ pySliceTo annual_atcfs (exit_year - 1) ++
      [atcf_exit + net_sale_proceeds_after_tax]
  let levered_irr := calc_irr levered_cfs
  let unlevered_irr := calc_irr unlevered_cfs
  let after_tax_irr := calc_irr levered_atcfs
  let equity_mult ← calc_equity_multiple levered_cfs
  let after_tax_em ← calc_equity_multiple levered_atcfs
  let btcf1 ← pyGet annual_btcfs 0
  let atcf1 ← pyGet annual_atcfs 0
  let noi1 ← pyGet annual_nois 0
  let coc_yr1 ← guardedMetric calc_cash_on_cash btcf1 equity
  let coc_yr1_at ← guardedMetric calc_cash_on_cash atcf1 equity
  let dscr_yr1 ← guardedMetric calc_dscr noi1 annual_ds
  let yoc ← calc_yield_on_cost noi1 total_cost
  let stabilized_noi ← pyGet annual_nois (min 2 ((annual_nois.length : ℤ) - 1))
  let stabilized_yoc ← calc_yield_on_cost stabilized_noi total_cost
  let stabilized_dscr ← guardedMetric calc_dscr stabilized_noi annual_ds
  let metrics : Metrics :=
    { levered_irr := levered_irr
      unlevered_irr := unlevered_irr
      after_tax_irr := after_tax_irr
      equity_multiple := equity_mult
      after_tax_equity_multiple := after_tax_em
      cash_on_cash_yr1 := coc_yr1
      cash_on_cash_yr1_after_tax := coc_yr1_at
      dscr_yr1 := dscr_yr1
      yield_on_cost := yoc
      stabilized_yoc := stabilized_yoc
      stabilized_dscr := stabilized_dscr
      going_in_cap_rate := derived.going_in_cap_rate
      exit_cap_rate := exit_cap
      price_per_unit := derived.price_per_unit
      price_per_sf := derived.price_per_sf
      used_variable_growth := deal.yearly_revenue_growth.length ≠ 0 }
  let annual_amort : List AnnualAmort :=
    if amort_schedule.length ≠ 0 then
      (List.range (min years (amort_schedule.length / 12))).map (fun i =>
        let yr := i + 1
        let yr_slice := (amort_schedule.drop ((yr - 1) * 12)).take 12
        { year := yr
          total_payment := pyRound ((yr_slice.map (fun m => m.payment)).sum) 2
          total_principal := pyRound ((yr_slice.map (fun m => m.principal)).sum) 2
          total_interest := pyRound ((yr_slice.map (fun m => m.interest)).sum) 2
          -- the slice is non-empty for every year in this range
          ending_balance := (yr_slice.getLast?.getD ⟨0, 0, 0, 0, 0⟩).balance })
    else []
  pure
    { inputs := deal
      derived := derived
      sources_uses := sources_uses
      pro_forma := pro_forma_years
      amortization_monthly := amort_schedule
      amortization_annual := annual_amort
      reversion := reversion
      metrics := metrics
      levered_cash_flows := levered_cfs.map (fun cf => pyRound cf 2)
      unlevered_cash_flows := unlevered_cfs.map (fun cf => pyRound cf 2)
      after_tax_cash_flows := levered_atcfs.map (fun cf => pyRound cf 2)
      annual_nois := annual_nois.map (fun n => pyRound n 2)
      annual_btcfs := annual_btcfs.map (fun b => pyRound b 2)
      annual_atcfs := annual_atcfs.map (fun a => pyRound a 2) }

/-- Modelled from the spec and external library: numpy's global random
state.  The generator itself (a Mersenne Twister) is a library dependency,
not repository code; the spec requires only a single seeded generator whose
draws advance in a fixed per-iteration order.  It is modelled as a seeded
counter-based stream with a fixed mixing function; `np.random.seed`
overwrites the state as a function of the seed alone. -/
structure NpRandomState where
  seed : ℕ
  counter : ℕ

/-- The state set by `np.random.seed(s)`. -/
def npSeed (s : ℕ) : NpRandomState := ⟨s, 0⟩

/-- One uniform draw on [lo, hi) from the modelled global state. -/
def npUniform (lo hi : ℚ) (st : NpRandomState) : ℚ × NpRandomState :=
  let x := (st.seed * 6364136223846793005 +
            st.counter * 1442695040888963407 + 1013904223) % 4294967296
  (lo + (hi - lo) * ((x : ℚ) / 4294967296), ⟨st.seed, st.counter + 1⟩)

/-- Modelled from the external library: numpy percentile with linear
interpolation on the sorted sample. -/
def npPercentile (xs : List ℚ) (p : ℚ) : ℚ :=
  let s := List.insertionSort (fun a b => a ≤ b) xs
  let n := s.length
  if n = 0 then 0
  else
    let h := ((n : ℚ) - 1) * p / 100
    let lo := ⌊h⌋
    let loN := lo.toNat
    if loN + 1 < n then
      s.getD loN 0 + (h - (lo : ℚ)) * (s.getD (loN + 1) 0 - s.getD loN 0)
    else s.getD (n - 1) 0

/-- Modelled from the external library: numpy histogram over equal-width
bins between the sample min and max, the last bin right-inclusive.
Returns (edges, counts). -/
def npHistogram (xs : List ℚ) (bins : ℕ) : List ℚ × List ℕ :=
  match xs with
  | [] => ([], [])
  | x :: rest =>
    let mn := rest.foldl min x
    let mx := rest.foldl max x
    let edges := (List.range (bins + 1)).map
      (fun i => mn + (mx - mn) * (i : ℚ) / (bins : ℚ))
    let counts := (List.range bins).map (fun i =>
      let leftEdge := mn + (mx - mn) * (i : ℚ) / (bins : ℚ)
      let rightEdge := mn + (mx - mn) * ((i : ℚ) + 1) / (bins : ℚ)
      (xs.filter (fun v =>
        if i + 1 = bins then decide (leftEdge ≤ v ∧ v ≤ rightEdge)
        else decide (leftEdge ≤ v ∧ v < rightEdge))).length)
    (edges, counts)

/-- Arithmetic mean (np.mean), zero on the empty list. -/
def listMean (xs : List ℚ) : ℚ :=
  if xs.length = 0 then 0 else xs.sum / (xs.length : ℚ)

/-- Fixed-precision rational square root (via Nat.sqrt at 10^-6
resolution), standing in for the float square root inside the modelled
np.std. -/
def ratSqrt (q : ℚ) : ℚ :=
  if q ≤ 0 then 0
  else (Nat.sqrt (q.num.toNat * q.den * 10 ^ 12) : ℚ) / ((q.den : ℚ) * 10 ^ 6)

/-- Population standard deviation (np.std) on the modelled rationals. -/
def listStd (xs : List ℚ) : ℚ :=
  let m := listMean xs
  ratSqrt (listMean (xs.map (fun x => (x - m) ^ 2)))

/-- Minimum of a sample (np.min), zero on the empty list. -/
def listMin (xs : List ℚ) : ℚ :=
  match xs with
  | [] => 0
  | x :: rest => rest.foldl min x

/-- Maximum of a sample (np.max), zero on the empty list. -/
def listMax (xs : List ℚ) : ℚ :=
  match xs with
  | [] => 0
  | x :: rest => rest.foldl max x

/-- Categorical signal derived from the Monte Carlo probabilities. -/
inductive MCSignal where
  | positive
  | moderate
  | warning
  | neutral
deriving DecidableEq, Repr

/-- Successful Monte Carlo distribution bundle.  The prose fields of the
source dict (`summary`, `mc_detail`) are string formattings of the numeric
fields carried here and are not separately modelled. -/
structure MCSuccess where
  n_iterations : ℕ
  valid_iterations : ℕ
  failed_iterations : ℕ
  mean_irr : ℚ
  std_irr : ℚ
  min_irr : ℚ
  max_irr : ℚ
  mean_em : ℚ
  p5 : ℚ
  p10 : ℚ
  p25 : ℚ
  p50 : ℚ
  p75 : ℚ
  p90 : ℚ
  p95 : ℚ
  prob_irr_above_8 : ℚ
  prob_irr_above_12 : ℚ
  prob_irr_above_15 : ℚ
  prob_negative : ℚ
  histogram_bins : List ℚ
  histogram_counts : List ℕ
  mc_signal : MCSignal

/-- Outcome of `MonteCarloSimulator.run`: either the dict carrying an
explicit error marker, or the distribution bundle.  Exceptions inside the
loop are caught and counted; no exception escapes. -/
inductive MCOutcome where
  | err (msg : String)
  | success (r : MCSuccess)

/-- Aggregation stage of `MonteCarloSimulator.run` (lines 76-150 of
monte_carlo.py): insufficient-data marker below 10 valid iterations, else
percentiles, threshold probabilities, histogram and the derived signal. -/
def mcAggregate (n_iterations : ℕ) (irrs ems : List ℚ) (failed : ℕ) : MCOutcome :=
  if irrs.length < 10 then
    .err ("Too few valid simulations (" ++ toString irrs.length ++ "/" ++
          toString n_iterations ++ ")")
  else
    let nv : ℚ := (irrs.length : ℚ)
    let prob_8 := pyRound (((irrs.filter (fun v => v > 8)).length : ℚ) / nv * 100) 1
    let prob_12 := pyRound (((irrs.filter (fun v => v > 12)).length : ℚ) / nv * 100) 1
    let prob_15 := pyRound (((irrs.filter (fun v => v > 15)).length : ℚ) / nv * 100) 1
    let prob_negative := pyRound (((irrs.filter (fun v => v < 0)).length : ℚ) / nv * 100) 1
    let hist := npHistogram irrs 20
    let mc_signal : MCSignal :=
      if prob_12 ≥ 70 then .positive
      else if prob_8 ≥ 70 then .moderate
      else if prob_negative > 20 then .warning
      else .neutral
    .success
      { n_iterations := n_iterations
        valid_iterations := irrs.length
        failed_iterations := failed
        mean_irr := pyRound (listMean irrs) 1
        std_irr := pyRound (listStd irrs) 1
        min_irr := pyRound (listMin irrs) 1
        max_irr := pyRound (listMax irrs) 1
        mean_em := pyRound (listMean ems) 2
        p5 := pyRound (npPercentile irrs 5) 1
        p10 := pyRound (npPercentile irrs 10) 1
        p25 := pyRound (npPercentile irrs 25) 1
        p50 := pyRound (npPercentile irrs 50) 1
        p75 := pyRound (npPercentile irrs 75) 1
        p90 := pyRound (npPercentile irrs 90) 1
        p95 := pyRound (npPercentile irrs 95) 1
        prob_irr_above_8 := prob_8
        prob_irr_above_12 := prob_12
        prob_irr_above_15 := prob_15
        prob_negative := prob_negative
        histogram_bins := hist.1.map (fun e => pyRound e 1)
        histogram_counts := hist.2
        mc_signal := mc_signal }

/-- One Monte Carlo perturbation of the deal from four uniform draws (run
body, lines 44-62 of monte_carlo.py): relative rent-growth and
expense-growth shocks, absolute occupancy and exit-cap-spread shocks, each
clamped; the variable growth sequence is cleared so the flat rate is
used. -/
def mcPerturb (deal : DealInputs) (growth_shock occ_shock cap_shock exp_shock : ℚ) :
    DealInputs :=
  { deal with
      revenue_growth_rate := max 0 (deal.revenue_growth_rate * (1 + growth_shock))
      yearly_revenue_growth := []
      occupancy := max 0.60 (min 0.99 (deal.occupancy + occ_shock))
      exit_cap_rate_spread := max 0 (deal.exit_cap_rate_spread + cap_shock)
      expense_growth_rate := max 0 (deal.expense_growth_rate * (1 + exp_shock)) }

/-- Result filter of one Monte Carlo iteration: the levered IRR (as a
percentage) and equity multiple when the rebuild succeeds and the IRR is
non-null and inside the sanity band [-1, 2]; `none` otherwise (counted as
failed, exceptions included). -/
def mcIterResult (sim_deal : DealInputs) : Option (ℚ × ℚ) :=
  match buildProForma sim_deal with
  | .error _ => none
  | .ok result =>
    match result.metrics.levered_irr with
    | none => none
    | some irr =>
      if -1 ≤ irr ∧ irr ≤ 2 then some (irr * 100, result.metrics.equity_multiple)
      else none

/-- The Monte Carlo loop: n iterations in order, each drawing the four
shocks in the fixed order (growth, occupancy, exit-cap spread, expense
growth) from the seeded generator, rebuilding the pro forma and collecting
valid (IRR-percentage, equity-multiple) pairs.  Returns (irrs, ems, failed
count, final RNG state). -/
def mcCollect (deal : DealInputs) : ℕ → NpRandomState →
    List ℚ × List ℚ × ℕ × NpRandomState
  | 0, st => ([], [], 0, st)
  | n + 1, st =>
      let u1 := npUniform (-0.30) 0.30 st
      let u2 := npUniform (-0.03) 0.03 u1.2
      let u3 := npUniform (-0.0050) 0.0050 u2.2
      let u4 := npUniform (-0.25) 0.25 u3.2
      let sim_deal := mcPerturb deal u1.1 u2.1 u3.1 u4.1
      let rest := mcCollect deal n u4.2
      match mcIterResult sim_deal with
      | some pr => (pr.1 :: rest.1, pr.2 :: rest.2.1, rest.2.2.1, rest.2.2.2)
      | none => (rest.1, rest.2.1, rest.2.2.1 + 1, rest.2.2.2)

/-- The Monte Carlo simulation engine (`MonteCarloSimulator`). -/
structure MonteCarloSimulator where
  n_iterations : ℕ := 1000
  seed : ℕ := 42

/-- Run the simulation (`MonteCarloSimulator.run`).  Takes and returns the
modelled numpy global random state; the first action re-seeds it, which is
what makes the run independent of the incoming state. -/
def MonteCarloSimulator.run (sim : MonteCarloSimulator) (deal : DealInputs)
    (_globalState : NpRandomState) : MCOutcome × NpRandomState :=
  let st0 := npSeed sim.seed
  let r := mcCollect deal sim.n_iterations st0
  (mcAggregate sim.n_iterations r.1 r.2.1 r.2.2.1, r.2.2.2)

/-- Levered IRR observed for a rebuilt deal; `none` when the rebuild
raises. -/
def leveredIrrOf (deal : DealInputs) : Option ℚ :=
  match buildProForma deal with
  | .error _ => none
  | .ok r => r.metrics.levered_irr

/-- Probability of IRR above 15% carried by a Monte Carlo outcome. -/
def MCOutcome.prob15 : MCOutcome → Option ℚ
  | .err _ => none
  | .success r => some r.prob_irr_above_15

/-- Probability of negative IRR carried by a Monte Carlo outcome. -/
def MCOutcome.probNeg : MCOutcome → Option ℚ
  | .err _ => none
  | .success r => some r.prob_negative

/-- Signal carried by a Monte Carlo outcome. -/
def MCOutcome.signal : MCOutcome → Option MCSignal
  | .err _ => none
  | .success r => some r.mc_signal

/-- Whether a Monte Carlo outcome is the explicit error marker. -/
def MCOutcome.isErr : MCOutcome → Bool
  | .err _ => true
  | .success _ => false

/-- Scenario 1 of the spec: 50 units at 12.5M, in-place 1300 vs market
1450, NOI 650k, 7-year hold, default financing. -/
def scenario1Deal : DealInputs :=
  { purchase_price := 12500000, total_units := 50, in_place_rent := 1300,
    market_rent := 1450, current_noi := 650000, occupancy := 0.92,
    hold_period_years := 7 }

/-- Scenario 3 of the spec: predicted growth [5, 4, 3] with a 5-year
hold. -/
def scenario3Deal : DealInputs :=
  { yearly_revenue_growth := [5, 4, 3], hold_period_years := 5 }

/-- Positive-price/units/rent deal exhibiting the category-sum gap. -/
def expenseSumDeal : DealInputs :=
  { purchase_price := 100, total_units := 1, in_place_rent := 100, current_noi := 0 }

/-- Degenerate deal with market_rent = 0 above a negative in-place rent. -/
def negativeRentDeal : DealInputs :=
  { in_place_rent := -100, market_rent := 0, hold_period_years := 7 }

/-- Deal with no rent gap used to compare expense lines across
growth-injection modes. -/
def flatRentDeal : DealInputs :=
  { in_place_rent := 1000, total_units := 1 }

/-- The same deal with a variable growth sequence injected. -/
def flatRentDealVar : DealInputs :=
  { flatRentDeal with yearly_revenue_growth := [10] }

/-- Zero-debt deal (LTV 0) used to witness totality of the build. -/
def zeroDebtDeal : DealInputs :=
  { purchase_price := 1000000, ltv := 0, total_units := 10,
    in_place_rent := 800, current_noi := 50000 }

/-- A bimodal valid-IRR sample: 60% of the mass at 20%, 30% at -5%, 10%
at 5%. -/
def bimodalIrrs : List ℚ := [20, 20, 20, 20, 20, 20, -5, -5, -5, 5]

/-- Equity multiples paired with `bimodalIrrs`. -/
def bimodalEms : List ℚ := [1, 1, 1, 1, 1, 1, 1, 1, 1, 1]

/-- A tight all-high IRR sample. -/
def tightIrrs : List ℚ := [20, 20, 20, 20, 20, 20, 20, 20, 20, 20, 20, 20]

/-- Equity multiples paired with `tightIrrs`. -/
def tightEms : List ℚ := [2, 2, 2, 2, 2, 2, 2, 2, 2, 2, 2, 2]

/-! ### Helper lemmas -/

theorem except_ok_bind {ε α β : Type} (a : α) (f : α → Except ε β) :
    ((Except.ok a : Except ε α) >>= f) = f a := rfl

theorem except_isOk_bind {ε α β : Type} (x : Except ε α) (f : α → Except ε β)
    (hx : x.isOk = true) (hf : ∀ a, (f a).isOk = true) :
    (x >>= f).isOk = true := by
  cases x with
  | error e => simp [Except.isOk, Except.toBool] at hx
  | ok a => rw [except_ok_bind]; exact hf a

theorem pyGet_eq_ok {α : Type} (l : List α) (i : ℤ) (h0 : 0 ≤ i)
    (h1 : i < l.length) :
    pyGet l i = .ok (l.get ⟨i.toNat, by omega⟩) := by
  unfold pyGet
  have hj : ¬ i < 0 := by omega
  simp only [hj, if_false]
  rw [dif_pos ⟨h0, h1⟩]

theorem pyGet_isOk {α : Type} (l : List α) (i : ℤ) (h0 : 0 ≤ i)
    (h1 : i < l.length) : (pyGet l i).isOk = true := by
  rw [pyGet_eq_ok l i h0 h1]; rfl

theorem pyDiv_eq_ok (a b : ℚ) (hb : b ≠ 0) : pyDiv a b = .ok (a / b) := by
  unfold pyDiv; rw [if_neg hb]

theorem pyDiv_isOk (a b : ℚ) (hb : b ≠ 0) : (pyDiv a b).isOk = true := by
  rw [pyDiv_eq_ok a b hb]; rfl

theorem calc_cash_on_cash_isOk (a b : ℚ) : (calc_cash_on_cash a b).isOk = true := by
  unfold calc_cash_on_cash
  split_ifs with h
  · rfl
  · exact pyDiv_isOk a b h

theorem calc_dscr_isOk (a b : ℚ) : (calc_dscr a b).isOk = true := by
  unfold calc_dscr
  split_ifs with h
  · rfl
  · exact pyDiv_isOk a b h

theorem calc_yield_on_cost_isOk (a b : ℚ) : (calc_yield_on_cost a b).isOk = true := by
  unfold calc_yield_on_cost
  split_ifs with h
  · rfl
  · exact pyDiv_isOk a b h

theorem pyGet_cons_zero {α : Type} (a : α) (l : List α) :
    pyGet (a :: l) 0 = .ok a := by
  rw [pyGet_eq_ok (a :: l) 0 (by omega) (by simp)]
  rfl

theorem calc_equity_multiple_isOk (l : List ℚ) (h : l ≠ []) :
    (calc_equity_multiple l).isOk = true := by
  unfold calc_equity_multiple
  cases l with
  | nil => exact absurd rfl h
  | cons c cs =>
    rw [pyGet_cons_zero, except_ok_bind]
    show (if |c| = 0 then pure 0
          else pyDiv (((c :: cs).drop 1).sum) |c|).isOk = true
    by_cases h0 : |c| = 0
    · rw [if_pos h0]; rfl
    · rw [if_neg h0]; exact pyDiv_isOk _ _ h0

theorem calc_monthly_payment_isOk (p r : ℚ) (y : ℤ) (hr : 0 < r) (hy : 1 ≤ y) :
    (calc_monthly_payment p r y).isOk = true := by
  unfold calc_monthly_payment
  have h3 : (1 : ℚ) < (1 + r / 12) ^ (12 * y) := by
    have h12 : (0 : ℚ) < r / 12 := by positivity
    have hlt : (1 : ℚ) < 1 + r / 12 := by linarith
    have h4 : (12 * y) = (((12 * y).toNat : ℕ) : ℤ) := by omega
    rw [h4, zpow_natCast]
    exact one_lt_pow₀ hlt (by omega)
  by_cases h1 : p = 0 ∨ r = 0
  · rw [if_pos h1]; rfl
  · rw [if_neg h1]
    have h5 : ((1 + r / 12) ^ (12 * y) - 1) ≠ 0 := sub_ne_zero.mpr (ne_of_gt h3)
    simp only [if_neg h5]
    rfl

theorem build_amortization_schedule_isOk (p r : ℚ) (ay ty io : ℤ)
    (hr : 0 < r) (hy : 1 ≤ ay) :
    (build_amortization_schedule p r ay ty io).isOk = true := by
  unfold build_amortization_schedule
  split_ifs with h1
  · rfl
  · exact except_isOk_bind _ _ (calc_monthly_payment_isOk p r ay hr hy)
      (fun a => rfl)

theorem setupDebtService_isOk (deal : DealInputs) (loan_amount : ℚ)
    (hamort : 1 ≤ deal.amortization_years) :
    (setupDebtService deal loan_amount).isOk = true := by
  unfold setupDebtService
  split_ifs with hc
  · refine except_isOk_bind _ _ (calc_monthly_payment_isOk _ _ _ hc.2 hamort) ?_
    intro mp
    refine except_isOk_bind _ _
      (build_amortization_schedule_isOk _ _ _ _ _ hc.2 hamort) ?_
    intro sched
    rfl
  · rfl

theorem resolveForwardNoi_isOk (deal : DealInputs) (annual_nois : List ℚ)
    (exit_year : ℤ) (exit_noi : ℚ) (h0 : 0 ≤ exit_year) :
    (resolveForwardNoi deal annual_nois exit_year exit_noi).isOk = true := by
  unfold resolveForwardNoi
  split_ifs with hle
  · exact pyGet_isOk _ _ h0 hle
  · rfl

theorem resolveExitLoanBalance_isOk (amort_schedule : List AmortMonth)
    (exit_year : ℤ) (loan_amount : ℚ) (h1 : 1 ≤ exit_year) :
    (resolveExitLoanBalance amort_schedule exit_year loan_amount).isOk = true := by
  unfold resolveExitLoanBalance
  split_ifs with hg
  · refine except_isOk_bind _ _ (pyGet_isOk _ _ (by omega) (by omega)) ?_
    intro m
    rfl
  · rfl

theorem guardedMetric_isOk (f : ℚ → ℚ → Except String ℚ) (a b : ℚ)
    (hf : ∀ x y, (f x y).isOk = true) : (guardedMetric f a b).isOk = true := by
  unfold guardedMetric
  split_ifs with h
  · exact hf a b
  · rfl

/-- C1: for every deal with a plausible hold period and amortization term
(at least one year each — the degenerate guards inside the build handle
zero debt, zero equity and flat cash flows), `build_pro_forma` returns a
complete result object: no internal division or indexing raises, and
non-convergent IRRs surface as null metrics, not errors. -/
theorem build_pro_forma_total (deal : DealInputs)
    (hhold : 1 ≤ deal.hold_period_years)
    (hamort : 1 ≤ deal.amortization_years) :
    (buildProForma deal).isOk = true := by
  unfold buildProForma
  simp only []
  refine except_isOk_bind _ _ (setupDebtService_isOk _ _ hamort) ?_
  intro dres
  refine except_isOk_bind _ _ (pyGet_isOk _ _ (by omega) (by simp; omega)) ?_
  intro exit_noi
  refine except_isOk_bind _ _ (resolveForwardNoi_isOk _ _ _ _ (by omega)) ?_
  intro forward_noi
  refine except_isOk_bind _ _ (pyDiv_isOk _ _ ?_) ?_
  · split_ifs with hcap
    · norm_num
    · exact ne_of_gt (not_le.mp hcap)
  · intro sale_price
    refine except_isOk_bind _ _ (resolveExitLoanBalance_isOk _ _ _ (by omega)) ?_
    intro loan_balance_at_exit
    refine except_isOk_bind _ _ (pyGet_isOk _ _ (by omega) (by simp; omega)) ?_
    intro btcf_exit
    refine except_isOk_bind _ _ (pyGet_isOk _ _ (by omega) (by simp; omega)) ?_
    intro atcf_exit
    refine except_isOk_bind _ _ (calc_equity_multiple_isOk _ (by simp)) ?_
    intro equity_mult
    refine except_isOk_bind _ _ (calc_equity_multiple_isOk _ (by simp)) ?_
    intro after_tax_em
    refine except_isOk_bind _ _ (pyGet_isOk _ _ (by omega) (by simp)) ?_
    intro btcf1
    refine except_isOk_bind _ _ (pyGet_isOk _ _ (by omega) (by simp)) ?_
    intro atcf1
    refine except_isOk_bind _ _ (pyGet_isOk _ _ (by omega) (by simp)) ?_
    intro noi1
    refine except_isOk_bind _ _
      (guardedMetric_isOk _ _ _ calc_cash_on_cash_isOk) ?_
    intro coc_yr1
    refine except_isOk_bind _ _
      (guardedMetric_isOk _ _ _ calc_cash_on_cash_isOk) ?_
    intro coc_yr1_at
    refine except_isOk_bind _ _ (guardedMetric_isOk _ _ _ calc_dscr_isOk) ?_
    intro dscr_yr1
    refine except_isOk_bind _ _ (calc_yield_on_cost_isOk _ _) ?_
    intro yoc
    refine except_isOk_bind _ _ (pyGet_isOk _ _ (by simp) (by simp)) ?_
    intro stabilized_noi
    refine except_isOk_bind _ _ (calc_yield_on_cost_isOk _ _) ?_
    intro stabilized_yoc
    refine except_isOk_bind _ _ (guardedMetric_isOk _ _ _ calc_dscr_isOk) ?_
    intro stabilized_dscr
    rfl

/-- C1 witness: the totality theorem instantiated at the zero-debt deal
(LTV 0, so senior debt is zero and the amortization schedule is empty). -/
theorem build_pro_forma_total_witness :
    1 ≤ zeroDebtDeal.hold_period_years ∧ 1 ≤ zeroDebtDeal.amortization_years ∧
    (buildProForma zeroDebtDeal).isOk = true :=
  ⟨by decide, by decide, build_pro_forma_total zeroDebtDeal (by decide) (by decide)⟩

/-- C10: `derive_assumptions` yields going-in cap rate = current NOI /
purchase price when the price is positive and 0 (not NaN, no exception)
otherwise, and always exit cap rate = going-in cap rate plus the additive
spread. -/
theorem cap_rates_from_derive (deal : DealInputs) :
    (0 < deal.purchase_price →
       (derive_assumptions deal).going_in_cap_rate =
         deal.current_noi / deal.purchase_price)
  ∧ (deal.purchase_price ≤ 0 → (derive_assumptions deal).going_in_cap_rate = 0)
  ∧ (derive_assumptions deal).exit_cap_rate =
      (derive_assumptions deal).going_in_cap_rate + deal.exit_cap_rate_spread := by
  refine ⟨fun h => ?_, fun h => ?_, rfl⟩
  · simp only [derive_assumptions]
    rw [if_pos h]
  · simp only [derive_assumptions]
    rw [if_neg (not_lt.mpr h)]

/-- C10 witness: zero purchase price gives cap rate 0; Scenario 1 gives
650000 / 12500000; the exit cap is the going-in cap plus the spread. -/
theorem cap_rates_from_derive_witness :
    (derive_assumptions {}).going_in_cap_rate = 0 ∧
    (derive_assumptions scenario1Deal).going_in_cap_rate = 650000 / 12500000 ∧
    (derive_assumptions scenario1Deal).exit_cap_rate =
      (derive_assumptions scenario1Deal).going_in_cap_rate +
        scenario1Deal.exit_cap_rate_spread :=
  ⟨(cap_rates_from_derive {}).2.1 (le_refl 0),
   (cap_rates_from_derive scenario1Deal).1 (by norm_num [scenario1Deal]),
   (cap_rates_from_derive scenario1Deal).2.2⟩

theorem derive_total_nonneg (deal : DealInputs) :
    0 ≤ (derive_assumptions deal).total_operating_expenses := by
  simp only [derive_assumptions]
  split_ifs with h1 h2 h3
  · norm_num
  · norm_num at h2 ⊢
    linarith
  · norm_num
  · norm_num at h3 ⊢
    linarith

theorem derive_remaining_nonneg (deal : DealInputs) : 0 ≤ derive_remaining deal := by
  unfold derive_remaining
  have h := derive_total_nonneg deal
  split_ifs with h1
  · exact h
  · linarith

/-- C4 (amended): for positive price, units and rent, `derive_assumptions`
(a total function) produces six non-negative expense categories, and they
sum to total operating expenses minus the management fee (EGI times the
fee percentage) when that difference is non-negative, and exactly to
total operating expenses when the fee is zeroed out — not to total
operating expenses itself. -/
theorem derive_expense_categories_nonneg_sum (deal : DealInputs)
    (hp : 0 < deal.purchase_price) (hu : 0 < deal.total_units)
    (hr : 0 < deal.in_place_rent) :
    (0 ≤ (derive_assumptions deal).property_tax ∧
     0 ≤ (derive_assumptions deal).insurance ∧
     0 ≤ (derive_assumptions deal).utilities ∧
     0 ≤ (derive_assumptions deal).repairs_maintenance ∧
     0 ≤ (derive_assumptions deal).general_admin ∧
     0 ≤ (derive_assumptions deal).other_expenses) ∧
    sumExpenseCategories (derive_assumptions deal) =
      (if (derive_assumptions deal).total_operating_expenses -
            (derive_assumptions deal).effective_gross_income * deal.management_fee_pct < 0
       then (derive_assumptions deal).total_operating_expenses
       else (derive_assumptions deal).total_operating_expenses -
            (derive_assumptions deal).effective_gross_income * deal.management_fee_pct) := by
  have h35 : (derive_assumptions deal).property_tax = derive_remaining deal * 0.35 := rfl
  have h15a : (derive_assumptions deal).insurance = derive_remaining deal * 0.15 := rfl
  have h15b : (derive_assumptions deal).utilities = derive_remaining deal * 0.15 := rfl
  have h15c : (derive_assumptions deal).repairs_maintenance =
    derive_remaining deal * 0.15 := rfl
  have h10a : (derive_assumptions deal).general_admin = derive_remaining deal * 0.10 := rfl
  have h10b : (derive_assumptions deal).other_expenses = derive_remaining deal * 0.10 := rfl
  have hR : (if (derive_assumptions deal).total_operating_expenses -
      (derive_assumptions deal).effective_gross_income * deal.management_fee_pct < 0
     then (derive_assumptions deal).total_operating_expenses
     else (derive_assumptions deal).total_operating_expenses -
      (derive_assumptions deal).effective_gross_income * deal.management_fee_pct) =
      derive_remaining deal := rfl
  have hnn := derive_remaining_nonneg deal
  constructor
  · exact ⟨by rw [h35]; exact mul_nonneg hnn (by norm_num),
           by rw [h15a]; exact mul_nonneg hnn (by norm_num),
           by rw [h15b]; exact mul_nonneg hnn (by norm_num),
           by rw [h15c]; exact mul_nonneg hnn (by norm_num),
           by rw [h10a]; exact mul_nonneg hnn (by norm_num),
           by rw [h10b]; exact mul_nonneg hnn (by norm_num)⟩
  · rw [sumExpenseCategories, h35, h15a, h15b, h15c, h10a, h10b, hR]
    ring

/-- C4 counterexample: a positive price/units/rent deal (price 100, one
unit at 100/month, NOI 0) where the six stored categories sum to 1123.26
while total operating expenses are 1164 — the management fee of 40.74 is
computed but not stored as a category, so the gap is far beyond
rounding. -/
theorem derive_expense_sum_counterexample :
    0 < expenseSumDeal.purchase_price ∧ 0 < expenseSumDeal.total_units ∧
    0 < expenseSumDeal.in_place_rent ∧
    sumExpenseCategories (derive_assumptions expenseSumDeal) = 112326 / 100 ∧
    (derive_assumptions expenseSumDeal).total_operating_expenses = 1164 ∧
    (derive_assumptions expenseSumDeal).total_operating_expenses -
      sumExpenseCategories (derive_assumptions expenseSumDeal) = 4074 / 100 := by
  have hmf : strContains (parse_property_type "Multifamily - Class B").1
      "Multifamily" = true := by decide
  refine ⟨by norm_num [expenseSumDeal], by decide, by norm_num [expenseSumDeal],
    ?_, ?_, ?_⟩
  · norm_num [sumExpenseCategories, derive_assumptions, expenseSumDeal, hmf]
  · norm_num [derive_assumptions, expenseSumDeal, hmf]
  · norm_num [sumExpenseCategories, derive_assumptions, expenseSumDeal, hmf]

/-- C4 witness: the amended sum identity evaluated at the same deal. -/
theorem derive_expense_categories_nonneg_sum_witness :
    0 < expenseSumDeal.purchase_price ∧ 0 < expenseSumDeal.total_units ∧
    0 < expenseSumDeal.in_place_rent ∧
    0 ≤ (derive_assumptions expenseSumDeal).property_tax ∧
    sumExpenseCategories (derive_assumptions expenseSumDeal) =
      (if (derive_assumptions expenseSumDeal).total_operating_expenses -
            (derive_assumptions expenseSumDeal).effective_gross_income *
              expenseSumDeal.management_fee_pct < 0
       then (derive_assumptions expenseSumDeal).total_operating_expenses
       else (derive_assumptions expenseSumDeal).total_operating_expenses -
            (derive_assumptions expenseSumDeal).effective_gross_income *
              expenseSumDeal.management_fee_pct) := by
  have h := derive_expense_categories_nonneg_sum expenseSumDeal
    (by norm_num [expenseSumDeal]) (by decide) (by norm_num [expenseSumDeal])
  exact ⟨by norm_num [expenseSumDeal], by decide, by norm_num [expenseSumDeal],
    h.1.1, h.2⟩

/-- C2: the per-year growth resolver of `build_pro_forma`
(`_get_revenue_growth`) returns `yearly_revenue_growth[y-1] / 100` whenever
the sequence is non-empty and covers the 0-indexed position y-1, and the
flat `revenue_growth_rate` otherwise. -/
theorem revenue_growth_resolution (deal : DealInputs) (y : ℕ) (hy : 1 ≤ y) :
    (y - 1 < deal.yearly_revenue_growth.length →
       getRevenueGrowth deal ((y : ℤ) - 1) =
         deal.yearly_revenue_growth.getD (y - 1) 0 / 100)
  ∧ (deal.yearly_revenue_growth.length ≤ y - 1 →
       getRevenueGrowth deal ((y : ℤ) - 1) = deal.revenue_growth_rate) := by
  have hto : ((y : ℤ) - 1).toNat = y - 1 := by omega
  constructor
  · intro h
    have hne : deal.yearly_revenue_growth.length ≠ 0 := by omega
    have hlt : (y : ℤ) - 1 < (deal.yearly_revenue_growth.length : ℤ) := by omega
    have h0 : (0 : ℤ) ≤ (y : ℤ) - 1 := by omega
    unfold getRevenueGrowth
    simp only []
    rw [if_pos ⟨hne, hlt⟩, if_pos h0, hto]
  · intro h
    have hge : ¬ ((y : ℤ) - 1 < (deal.yearly_revenue_growth.length : ℤ)) := by omega
    unfold getRevenueGrowth
    simp only []
    rw [if_neg (fun hc => hge hc.2)]

/-- C2 witness: Scenario 3 — growth sequence [5, 4, 3] with a 5-year hold
resolves years 1 and 3 from the sequence and year 4 from the flat rate. -/
theorem revenue_growth_resolution_witness :
    getRevenueGrowth scenario3Deal 0 = 5 / 100 ∧
    getRevenueGrowth scenario3Deal 2 = 3 / 100 ∧
    getRevenueGrowth scenario3Deal 3 = scenario3Deal.revenue_growth_rate := by
  refine ⟨?_, ?_, ?_⟩
  · have h := (revenue_growth_resolution scenario3Deal 1 (by norm_num)).1 (by decide)
    simpa [scenario3Deal] using h
  · have h := (revenue_growth_resolution scenario3Deal 3 (by norm_num)).1 (by decide)
    simpa [scenario3Deal] using h
  · have h := (revenue_growth_resolution scenario3Deal 4 (by norm_num)).2 (by decide)
    simpa using h

theorem foldl_mul_eq_mul_prod (f : ℤ → ℚ) (l : List ℤ) (init : ℚ) :
    l.foldl (fun acc y => acc * f y) init = init * (l.map f).prod := by
  induction l generalizing init with
  | nil => simp
  | cons x xs ih => simp [ih, mul_assoc]

/-- C3 (amended): for a deal with a non-negative hold period whose market
rent is positive and above the in-place rent, ramp years (1 up to min 3
hold) interpolate linearly and identically whatever variable growth
sequence is supplied, and post-ramp years compound from market rent — a
year-by-year product of resolved rates when a variable sequence is
present, flat exponentiation otherwise.  (The positivity of market_rent is
forced by the counterexample: the source replaces a non-positive market
rent by the in-place rent, erasing the gap.  The non-negative hold period
keeps every growth-resolver index non-negative: at a negative hold with a
variable sequence the source itself raises IndexError at
`yearly_growth[yr_idx]`, a path this embedding does not model.) -/
theorem rent_ramp_and_compounding (deal : DealInputs)
    (hhold : 0 ≤ deal.hold_period_years)
    (hm : 0 < deal.market_rent) (hgap : deal.in_place_rent < deal.market_rent) :
    (∀ yr : ℕ, 1 ≤ yr → (yr : ℤ) ≤ min 3 deal.hold_period_years →
       ∀ l : List ℚ,
         rentPerUnit { deal with yearly_revenue_growth := l } yr =
           deal.in_place_rent + (deal.market_rent - deal.in_place_rent) *
             ((yr : ℚ) / ((min 3 deal.hold_period_years : ℤ) : ℚ)))
  ∧ (∀ yr : ℕ, min 3 deal.hold_period_years < (yr : ℤ) →
       (deal.yearly_revenue_growth ≠ [] →
          rentPerUnit deal yr =
            deal.market_rent *
              ((listRange (min 3 deal.hold_period_years) (yr : ℤ)).map
                 (fun y => 1 + getRevenueGrowth deal y)).prod)
     ∧ (deal.yearly_revenue_growth = [] →
          rentPerUnit deal yr =
            deal.market_rent * (1 + deal.revenue_growth_rate) ^
              ((yr : ℤ) - min 3 deal.hold_period_years))) := by
  have hgap' : (0 : ℚ) < deal.market_rent - deal.in_place_rent := sub_pos.mpr hgap
  constructor
  · intro yr h1 h2 l
    unfold rentPerUnit
    simp only []
    rw [if_pos hm, if_pos ⟨hgap', h2⟩]
  · intro yr hgt
    have hc1 : ¬ (0 < deal.market_rent - deal.in_place_rent ∧
        (yr : ℤ) ≤ min 3 deal.hold_period_years) := fun hc => absurd hc.2 (by omega)
    constructor
    · intro hvar
      have hvl : deal.yearly_revenue_growth.length ≠ 0 := by
        simpa [List.length_eq_zero] using hvar
      unfold rentPerUnit
      simp only []
      rw [if_pos hm, if_neg hc1, if_pos hgap', if_pos hvl]
      exact foldl_mul_eq_mul_prod _ _ _
    · intro hflat
      have hvl : ¬ deal.yearly_revenue_growth.length ≠ 0 := by simp [hflat]
      unfold rentPerUnit
      simp only []
      rw [if_pos hm, if_neg hc1, if_pos hgap', if_neg hvl]

/-- C3 witness: Scenario 1 — in-place 1300, market 1450, hold 7 gives
year-1 rent per unit 1300 + 150 / 3 = 1350. -/
theorem rent_ramp_and_compounding_witness :
    0 ≤ scenario1Deal.hold_period_years ∧
    0 < scenario1Deal.market_rent ∧
    scenario1Deal.in_place_rent < scenario1Deal.market_rent ∧
    rentPerUnit scenario1Deal 1 = 1350 := by
  refine ⟨by decide, ?_⟩
  have hA : (0 : ℚ) < scenario1Deal.market_rent := by
    rw [show scenario1Deal.market_rent = (1450 : ℚ) from rfl]; norm_num
  have hB : scenario1Deal.in_place_rent < scenario1Deal.market_rent := by
    rw [show scenario1Deal.in_place_rent = (1300 : ℚ) from rfl,
        show scenario1Deal.market_rent = (1450 : ℚ) from rfl]
    norm_num
  have hC : ((1 : ℕ) : ℤ) ≤ min 3 scenario1Deal.hold_period_years := by
    rw [show scenario1Deal.hold_period_years = (7 : ℤ) from rfl]; omega
  have h := (rent_ramp_and_compounding scenario1Deal (by decide) hA hB).1 1 (le_refl 1) hC []
  have h2 : rentPerUnit scenario1Deal 1 =
      scenario1Deal.in_place_rent +
        (scenario1Deal.market_rent - scenario1Deal.in_place_rent) *
          (((1 : ℕ) : ℚ) / ((min 3 scenario1Deal.hold_period_years : ℤ) : ℚ)) := h
  refine ⟨hA, hB, ?_⟩
  rw [h2, show scenario1Deal.in_place_rent = (1300 : ℚ) from rfl,
      show scenario1Deal.market_rent = (1450 : ℚ) from rfl,
      show scenario1Deal.hold_period_years = (7 : ℤ) from rfl]
  norm_num [min_def]

/-- C3 counterexample: with market_rent = 0 above a negative in-place rent
(market_rent > in_place_rent holds), the source replaces the market rent by
the in-place rent, so year 1 stays at -100 instead of the claimed linear
interpolation toward -200/3. -/
theorem rent_ramp_counterexample :
    negativeRentDeal.in_place_rent < negativeRentDeal.market_rent ∧
    rentPerUnit negativeRentDeal 1 = -100 ∧
    negativeRentDeal.in_place_rent +
      (negativeRentDeal.market_rent - negativeRentDeal.in_place_rent) *
        ((1 : ℚ) / ((min 3 negativeRentDeal.hold_period_years : ℤ) : ℚ)) = -200 / 3 ∧
    (-100 : ℚ) ≠ -200 / 3 := by
  refine ⟨by norm_num [negativeRentDeal], ?_, ?_, by norm_num⟩
  · norm_num [rentPerUnit, negativeRentDeal]
  · norm_num [negativeRentDeal, min_def]

/-- C5 (amended): each of the six derived expense categories and the
replacement reserves compounds its base at the flat expense growth rate
over yr - 1 years, and none of these lines changes when a variable
revenue-growth sequence is injected; the management-fee line is excluded —
it is proportional to that year's EGI and does change (see the
counterexample). -/
theorem expense_lines_flat_growth (deal : DealInputs) (l : List ℚ) (yr : ℕ)
    (hyr : 1 ≤ yr) :
    (propTaxY deal (derive_assumptions deal) yr =
       (derive_assumptions deal).property_tax *
         (1 + deal.expense_growth_rate) ^ (yr - 1) ∧
     insuranceY deal (derive_assumptions deal) yr =
       (derive_assumptions deal).insurance *
         (1 + deal.expense_growth_rate) ^ (yr - 1) ∧
     utilitiesY deal (derive_assumptions deal) yr =
       (derive_assumptions deal).utilities *
         (1 + deal.expense_growth_rate) ^ (yr - 1) ∧
     repairsY deal (derive_assumptions deal) yr =
       (derive_assumptions deal).repairs_maintenance *
         (1 + deal.expense_growth_rate) ^ (yr - 1) ∧
     generalAdminY deal (derive_assumptions deal) yr =
       (derive_assumptions deal).general_admin *
         (1 + deal.expense_growth_rate) ^ (yr - 1) ∧
     otherExpensesY deal (derive_assumptions deal) yr =
       (derive_assumptions deal).other_expenses *
         (1 + deal.expense_growth_rate) ^ (yr - 1) ∧
     reservesY deal yr =
       deal.replacement_reserves_per_unit * (deal.total_units : ℚ) *
         (1 + deal.expense_growth_rate) ^ (yr - 1)) ∧
    (propTaxY { deal with yearly_revenue_growth := l }
       (derive_assumptions { deal with yearly_revenue_growth := l }) yr =
       propTaxY deal (derive_assumptions deal) yr ∧
     insuranceY { deal with yearly_revenue_growth := l }
       (derive_assumptions { deal with yearly_revenue_growth := l }) yr =
       insuranceY deal (derive_assumptions deal) yr ∧
     utilitiesY { deal with yearly_revenue_growth := l }
       (derive_assumptions { deal with yearly_revenue_growth := l }) yr =
       utilitiesY deal (derive_assumptions deal) yr ∧
     repairsY { deal with yearly_revenue_growth := l }
       (derive_assumptions { deal with yearly_revenue_growth := l }) yr =
       repairsY deal (derive_assumptions deal) yr ∧
     generalAdminY { deal with yearly_revenue_growth := l }
       (derive_assumptions { deal with yearly_revenue_growth := l }) yr =
       generalAdminY deal (derive_assumptions deal) yr ∧
     otherExpensesY { deal with yearly_revenue_growth := l }
       (derive_assumptions { deal with yearly_revenue_growth := l }) yr =
       otherExpensesY deal (derive_assumptions deal) yr ∧
     reservesY { deal with yearly_revenue_growth := l } yr =
       reservesY deal yr) :=
  ⟨⟨rfl, rfl, rfl, rfl, rfl, rfl, rfl⟩, ⟨rfl, rfl, rfl, rfl, rfl, rfl, rfl⟩⟩

/-- C5 counterexample: injecting the sequence [10] into the no-gap deal
changes the year-2 management-fee expense line from 419.622 to 448.14 —
an expense line of the projection does change under variable
revenue-growth injection. -/
theorem management_fee_varies_counterexample :
    flatRentDealVar = { flatRentDeal with yearly_revenue_growth := [10] } ∧
    mgmtFeeY flatRentDealVar (derive_assumptions flatRentDealVar) 2 = 44814 / 100 ∧
    mgmtFeeY flatRentDeal (derive_assumptions flatRentDeal) 2 = 419622 / 1000 ∧
    mgmtFeeY flatRentDealVar (derive_assumptions flatRentDealVar) 2 ≠
      mgmtFeeY flatRentDeal (derive_assumptions flatRentDeal) 2 := by
  have hmf : strContains (parse_property_type "Multifamily - Class B").1
      "Multifamily" = true := by decide
  have h1 : mgmtFeeY flatRentDealVar (derive_assumptions flatRentDealVar) 2 =
      44814 / 100 := by
    norm_num [mgmtFeeY, egiY, gprY, rentPerUnit, occupancyY, otherIncomeY,
      derive_assumptions, flatRentDealVar, flatRentDeal, getRevenueGrowth,
      listRange, List.range_succ, hmf]
  have h2 : mgmtFeeY flatRentDeal (derive_assumptions flatRentDeal) 2 =
      419622 / 1000 := by
    norm_num [mgmtFeeY, egiY, gprY, rentPerUnit, occupancyY, otherIncomeY,
      derive_assumptions, flatRentDeal, getRevenueGrowth, hmf]
  exact ⟨rfl, h1, h2, by rw [h1, h2]; norm_num⟩

/-- C5 witness: the invariance instantiated at the no-gap deal, year 2,
sequence [10]. -/
theorem expense_lines_flat_growth_witness :
    (1 : ℕ) ≤ 2 ∧
    propTaxY { flatRentDeal with yearly_revenue_growth := [10] }
      (derive_assumptions { flatRentDeal with yearly_revenue_growth := [10] }) 2 =
      propTaxY flatRentDeal (derive_assumptions flatRentDeal) 2 :=
  ⟨by norm_num, ((expense_lines_flat_growth flatRentDeal [10] 2 (by norm_num)).2).1⟩

/-- C9 counterexample: `calc_equity_multiple` indexes `cash_flows[0]` and
so raises IndexError on an empty list — not every metrics-library function
returns without raising for every input. -/
theorem equity_multiple_empty_counterexample :
    calc_equity_multiple [] = .error "IndexError" := rfl

/-- C9 (amended): each metrics function is total on its intended domain
with the stated zero/null policy: `calc_irr` maps every raised or
NaN/None outcome of the library root-finder to null; `calc_equity_multiple`
is total on non-empty cash-flow lists and returns 0 when the invested
equity (the absolute first flow) is 0; cash-on-cash, DSCR and
yield-on-cost are total everywhere and return 0 on a zero denominator.
(Non-emptiness is forced by the counterexample: the empty list raises
IndexError.) -/
theorem metrics_total_with_zero_policy :
    (∀ cash_flows : List ℚ, ∀ e, npfIrrRaw cash_flows = .error e →
       calc_irr cash_flows = none)
  ∧ (∀ cash_flows : List ℚ, npfIrrRaw cash_flows = .ok none →
       calc_irr cash_flows = none)
  ∧ (∀ c : ℚ, ∀ cs : List ℚ,
       calc_equity_multiple (c :: cs) =
         .ok (if |c| = 0 then 0 else cs.sum / |c|))
  ∧ (∀ a b : ℚ, calc_cash_on_cash a b = .ok (if b = 0 then 0 else a / b))
  ∧ (∀ a b : ℚ, calc_dscr a b = .ok (if b = 0 then 0 else a / b))
  ∧ (∀ a b : ℚ, calc_yield_on_cost a b = .ok (if b = 0 then 0 else a / b)) := by
  refine ⟨?_, ?_, ?_, ?_, ?_, ?_⟩
  · intro cfs e h
    unfold calc_irr
    rw [h]
  · intro cfs h
    unfold calc_irr
    rw [h]
  · intro c cs
    unfold calc_equity_multiple
    rw [pyGet_cons_zero, except_ok_bind]
    show (if |c| = 0 then (pure 0 : Except String ℚ)
          else pyDiv (((c :: cs).drop 1).sum) |c|) =
         .ok (if |c| = 0 then 0 else cs.sum / |c|)
    split_ifs with h0
    · rfl
    · rw [pyDiv_eq_ok _ _ h0]
      rfl
  · intro a b
    unfold calc_cash_on_cash
    split_ifs with h
    · rfl
    · rw [pyDiv_eq_ok _ _ h]
  · intro a b
    unfold calc_dscr
    split_ifs with h
    · rfl
    · rw [pyDiv_eq_ok _ _ h]
  · intro a b
    unfold calc_yield_on_cost
    split_ifs with h
    · rfl
    · rw [pyDiv_eq_ok _ _ h]

/-- C9 witness: the zero/null policy evaluated on concrete inputs. -/
theorem metrics_total_with_zero_policy_witness :
    calc_equity_multiple [-100, 50] = .ok (1 / 2) ∧
    calc_cash_on_cash 7 0 = .ok 0 ∧
    calc_dscr 5 0 = .ok 0 ∧
    calc_yield_on_cost 9 0 = .ok 0 := by
  refine ⟨?_, ?_, ?_, ?_⟩
  · have h := (metrics_total_with_zero_policy.2.2.1) (-100) [50]
    rw [h]
    norm_num
  · have h := (metrics_total_with_zero_policy.2.2.2.1) 7 0
    rw [h]
    norm_num
  · have h := (metrics_total_with_zero_policy.2.2.2.2.1) 5 0
    rw [h]
    norm_num
  · have h := (metrics_total_with_zero_policy.2.2.2.2.2) 9 0
    rw [h]
    norm_num

/-- C6: two invocations of `MonteCarloSimulator.run` with the same
simulator (same seed, same n_iterations) and the same deal return outcomes
that are identical in every field, whatever the incoming global RNG state:
the run re-seeds the single generator first and advances it in a fixed
per-iteration draw order. -/
theorem monte_carlo_deterministic (sim : MonteCarloSimulator)
    (deal : DealInputs) (s1 s2 : NpRandomState) :
    (sim.run deal s1).1 = (sim.run deal s2).1 := rfl

/-- C7: an iteration is counted as failed exactly when its observed levered
IRR is null (a raising rebuild included) or outside the sanity band
[-100%, +200%] (inclusive, as decimals [-1, 2]); the loop's failed count is
the iteration count minus the number of valid draws; with fewer than 10
valid iterations the aggregation returns the explicit insufficient-data
marker (a returned value, not an exception); and `run` is exactly that
aggregation of the collected loop. -/
theorem monte_carlo_failed_and_insufficient :
    (∀ sim_deal : DealInputs,
       (mcIterResult sim_deal = none ↔
         leveredIrrOf sim_deal = none ∨
           (∃ irr, leveredIrrOf sim_deal = some irr ∧ (irr < -1 ∨ 2 < irr))))
  ∧ (∀ deal : DealInputs, ∀ n : ℕ, ∀ st : NpRandomState,
       (mcCollect deal n st).2.2.1 = n - (mcCollect deal n st).1.length ∧
       (mcCollect deal n st).1.length ≤ n)
  ∧ (∀ n : ℕ, ∀ irrs ems : List ℚ, ∀ failed : ℕ, irrs.length < 10 →
       ∃ msg, mcAggregate n irrs ems failed = .err msg)
  ∧ (∀ sim : MonteCarloSimulator, ∀ deal : DealInputs, ∀ st : NpRandomState,
       (sim.run deal st).1 =
         mcAggregate sim.n_iterations
           (mcCollect deal sim.n_iterations (npSeed sim.seed)).1
           (mcCollect deal sim.n_iterations (npSeed sim.seed)).2.1
           (mcCollect deal sim.n_iterations (npSeed sim.seed)).2.2.1) := by
  refine ⟨?_, ?_, ?_, fun sim deal st => rfl⟩
  · intro sim_deal
    unfold mcIterResult leveredIrrOf
    cases hb : buildProForma sim_deal with
    | error e => simp
    | ok r =>
      cases hirr : r.metrics.levered_irr with
      | none => simp [hirr]
      | some irr =>
        by_cases hc : -1 ≤ irr ∧ irr ≤ 2
        · simp only [hirr, if_pos hc]
          constructor
          · intro h
            exact absurd h (by simp)
          · rintro (h | ⟨irr', hi, hout⟩)
            · exact absurd h (by simp)
            · rw [Option.some.injEq] at hi
              subst hi
              rcases hout with h | h
              · exact absurd hc.1 (not_le.mpr h)
              · exact absurd hc.2 (not_le.mpr h)
        · simp only [hirr, if_neg hc]
          constructor
          · intro h
            refine Or.inr ⟨irr, rfl, ?_⟩
            rcases not_and_or.mp hc with h1 | h1
            · exact Or.inl (not_le.mp h1)
            · exact Or.inr (not_le.mp h1)
          · intro h
            trivial
  · intro deal n
    induction n with
    | zero => intro st; simp [mcCollect]
    | succ n ih =>
      intro st
      have hstep := ih (npUniform (-0.25) 0.25
        (npUniform (-0.0050) 0.0050
          (npUniform (-0.03) 0.03 (npUniform (-0.30) 0.30 st).2).2).2).2
      unfold mcCollect
      simp only []
      cases hi : mcIterResult (mcPerturb deal
          (npUniform (-0.30) 0.30 st).1
          (npUniform (-0.03) 0.03 (npUniform (-0.30) 0.30 st).2).1
          (npUniform (-0.0050) 0.0050
            (npUniform (-0.03) 0.03 (npUniform (-0.30) 0.30 st).2).2).1
          (npUniform (-0.25) 0.25
            (npUniform (-0.0050) 0.0050
              (npUniform (-0.03) 0.03 (npUniform (-0.30) 0.30 st).2).2).2).1) with
      | some pr =>
        simp only [List.length_cons]
        omega
      | none =>
        simp only [List.length_cons]
        omega
  · intro n irrs ems failed h
    unfold mcAggregate
    rw [if_pos h]
    exact ⟨_, rfl⟩

/-- C7 witness: three iterations can produce at most three valid draws, so
the aggregation returns the explicit insufficient-data marker. -/
theorem monte_carlo_failed_and_insufficient_witness :
    ([] : List ℚ).length < 10 ∧ ∃ msg, mcAggregate 3 [] [] 3 = .err msg :=
  ⟨by norm_num, monte_carlo_failed_and_insufficient.2.2.1 3 [] [] 3 (by norm_num)⟩

theorem mcAggregate_prob15 (n : ℕ) (irrs ems : List ℚ) (failed : ℕ)
    (h : ¬ irrs.length < 10) :
    (mcAggregate n irrs ems failed).prob15 =
      some (pyRound (((irrs.filter (fun v => v > 15)).length : ℚ) /
        (irrs.length : ℚ) * 100) 1) := by
  unfold mcAggregate
  rw [if_neg h]
  rfl

theorem mcAggregate_probNeg (n : ℕ) (irrs ems : List ℚ) (failed : ℕ)
    (h : ¬ irrs.length < 10) :
    (mcAggregate n irrs ems failed).probNeg =
      some (pyRound (((irrs.filter (fun v => v < 0)).length : ℚ) /
        (irrs.length : ℚ) * 100) 1) := by
  unfold mcAggregate
  rw [if_neg h]
  rfl

theorem mcAggregate_signal (n : ℕ) (irrs ems : List ℚ) (failed : ℕ)
    (h : ¬ irrs.length < 10) :
    (mcAggregate n irrs ems failed).signal =
      some (if pyRound (((irrs.filter (fun v => v > 12)).length : ℚ) /
                (irrs.length : ℚ) * 100) 1 ≥ 70 then MCSignal.positive
            else if pyRound (((irrs.filter (fun v => v > 8)).length : ℚ) /
                (irrs.length : ℚ) * 100) 1 ≥ 70 then MCSignal.moderate
            else if pyRound (((irrs.filter (fun v => v < 0)).length : ℚ) /
                (irrs.length : ℚ) * 100) 1 > 20 then MCSignal.warning
            else MCSignal.neutral) := by
  unfold mcAggregate
  rw [if_neg h]
  rfl

/-- C8 counterexample: a successful aggregate over a valid bimodal sample
(60% at 20% IRR, 30% at -5%, 10% at 5%) has P(IRR > 15%) = 60 > 50 and
yet mc_signal = WARNING: neither prob threshold for POSITIVE/MODERATE is
met and 30% of the sample is negative. -/
theorem mc_signal_warning_counterexample :
    (mcAggregate 10 bimodalIrrs bimodalEms 0).prob15 = some 60 ∧
    (50 : ℚ) < 60 ∧
    (mcAggregate 10 bimodalIrrs bimodalEms 0).signal = some MCSignal.warning := by
  have hlen : ¬ (bimodalIrrs.length < 10) := by norm_num [bimodalIrrs]
  refine ⟨?_, by norm_num, ?_⟩
  · rw [mcAggregate_prob15 _ _ _ _ hlen]
    norm_num [bimodalIrrs, List.filter_cons, decide_eq_true_eq, pyRound,
      roundHalfEven]
  · rw [mcAggregate_signal _ _ _ _ hlen]
    norm_num [bimodalIrrs, List.filter_cons, decide_eq_true_eq, pyRound,
      roundHalfEven]

/-- C8 (amended): for every successful Monte Carlo aggregate with
P(IRR > 15%) above 50 and P(IRR < 0) at most 20, the signal is POSITIVE,
MODERATE or NEUTRAL — never WARNING (the WARNING branch fires only when
P(IRR < 0) exceeds 20; the counterexample shows P(IRR > 15%) > 50 alone
does not preclude WARNING). -/
theorem mc_signal_not_warning_when_low_loss
    (n : ℕ) (irrs ems : List ℚ) (failed : ℕ) (r : MCSuccess)
    (hres : mcAggregate n irrs ems failed = .success r)
    (h15 : 50 < r.prob_irr_above_15) (hneg : r.prob_negative ≤ 20) :
    (r.mc_signal = .positive ∨ r.mc_signal = .moderate ∨ r.mc_signal = .neutral)
    ∧ r.mc_signal ≠ .warning := by
  have hlen : ¬ irrs.length < 10 := by
    intro hl
    rw [mcAggregate, if_pos hl] at hres
    exact MCOutcome.noConfusion hres
  have hsig := mcAggregate_signal n irrs ems failed hlen
  rw [hres] at hsig
  simp only [MCOutcome.signal, Option.some.injEq] at hsig
  have hpn := mcAggregate_probNeg n irrs ems failed hlen
  rw [hres] at hpn
  simp only [MCOutcome.probNeg, Option.some.injEq] at hpn
  rw [hpn] at hneg
  rw [hsig]
  split_ifs with h12 h8 hn
  · exact ⟨Or.inl rfl, by decide⟩
  · exact ⟨Or.inr (Or.inl rfl), by decide⟩
  · exact absurd hn (not_lt.mpr hneg)
  · exact ⟨Or.inr (Or.inr rfl), by decide⟩

/-- C8 witness: a tight all-high sample (twelve draws at 20% IRR) has
P(IRR > 15%) = 100 > 50 and P(IRR < 0) = 0 ≤ 20, and the amended theorem
yields a signal that is not WARNING. -/
theorem mc_signal_not_warning_when_low_loss_witness :
    (mcAggregate 12 tightIrrs tightEms 0).signal ≠ some MCSignal.warning := by
  have hlen : ¬ (tightIrrs.length < 10) := by norm_num [tightIrrs]
  rcases h : mcAggregate 12 tightIrrs tightEms 0 with msg | r
  · rw [mcAggregate, if_neg hlen] at h
    exact MCOutcome.noConfusion h
  · have h15 : (50 : ℚ) < r.prob_irr_above_15 := by
      have h1 := mcAggregate_prob15 12 tightIrrs tightEms 0 hlen
      rw [h] at h1
      simp only [MCOutcome.prob15, Option.some.injEq] at h1
      rw [h1]
      norm_num [tightIrrs, List.filter_cons, decide_eq_true_eq, pyRound,
        roundHalfEven]
    have hneg : r.prob_negative ≤ 20 := by
      have h1 := mcAggregate_probNeg 12 tightIrrs tightEms 0 hlen
      rw [h] at h1
      simp only [MCOutcome.probNeg, Option.some.injEq] at h1
      rw [h1]
      norm_num [tightIrrs, List.filter_cons, decide_eq_true_eq, pyRound,
        roundHalfEven]
    have hc := mc_signal_not_warning_when_low_loss 12 tightIrrs tightEms 0 r h h15 hneg
    simp only [MCOutcome.signal, ne_eq, Option.some.injEq]
    exact hc.2
